import Mathlib

/-!
Verification of the route-planner / RAG repository against its
specification.

Shallow embedding of `src/route_planner_rag/main.py`.  Python floats are
modelled as exact rationals (`ℚ`); the arithmetic in the program is only
division, multiplication, `max` and comparisons on values read from the
provider, so the rational model tracks the source formulas exactly.
Strings kept by the program are modelled as `String`.  Free-form text blocks
that the program assembles by f-string interpolation are modelled
structurally (a constructor carrying the interpolated fields) because the
claims quantify over those fields, not over decimal formatting; the
`datetime.now()` timestamp is passed in as an explicit `now` argument.
External collaborators (the HTTP geocoding and routing provider, the vector
store, the generative model) are passed in as function arguments; stdin is
modelled as a list of pending input lines; `print` side effects are not
modelled.
-/

namespace RoutePlanner

/-! ## ModeEstimator: `calculate_additional_transport_times` (main.py 347-375)

The Python function takes `distance_km` and a `mode` string and returns a
duration **in minutes** (`duration_minutes`, `return 30  # minimum flight
time in minutes`); its callers decode it with `divmod(duration, 60)` into
hours and minutes. -/

/-- Embedding of `calculate_additional_transport_times(distance_km, mode)`.
Returns the duration in minutes, exactly as the Python source does:
bus: `(distance_km / 25) * 60`; airplane: `30` when `distance_km < 100`,
otherwise `max 30 ((distance_km / 700) * 60 + 30)`; any other mode: `0`. -/
def calculate_additional_transport_times (distance_km : ℚ) (mode : String) : ℚ :=
  if mode = "bus" then
    (distance_km / 25) * 60
  else if mode = "airplane" then
    if distance_km < 100 then
      30
    else
      max 30 ((distance_km / 700) * 60 + 30)
  else
    0

/-- The duration in seconds denoted by the function's minute-valued return
(the unit conversion that the spec's `durationSeconds` contract asks for). -/
def durationSecondsOf (minutes : ℚ) : ℚ := minutes * 60

/-! ## LocationResolver: `geocoding` (main.py 301-345) -/

/-- One geocoding hit, as read out of the provider's JSON: `hits[0]["point"]`,
`hits[0]["name"]`, `hits[0]["osm_value"]`, and the optional `state` and
`country` keys (`none` models an absent key). -/
structure GeoHit where
  lat : ℚ
  lng : ℚ
  name : String
  osm_value : String
  state? : Option String
  country? : Option String
deriving DecidableEq

/-- The provider's reply to one geocode request: the HTTP status code and
the `hits` array of the JSON body. -/
structure GeoReply where
  status : Nat
  hits : List GeoHit
deriving DecidableEq

/-- The tuple `(json_status, lat, lng, new_loc)` that `geocoding` returns.
The Python code stores the string `"null"` into `lat`/`lng` when the
location is unresolved; this is modelled by `none`. -/
structure GeoResult where
  status : Nat
  lat? : Option ℚ
  lng? : Option ℚ
  new_loc : String
deriving DecidableEq

/-- Embedding of the `while location == "": location = input(...)` loop at
the top of `geocoding`: it consumes lines from stdin until a non-empty
location is obtained; `none` models exhausting stdin while every line was
empty (in Python, `input()` raising at end of input). -/
def firstNonEmptyLocation : String → List String → Option String
  | loc, [] => if loc = "" then none else some loc
  | loc, next :: rest =>
    if loc = "" then firstNonEmptyLocation next rest else some loc

/-- Embedding of the `new_loc` assembly in `geocoding` (main.py 329-334),
including the source's `elif` branch that concatenates `country` (not
`state`) when only the state is present.  `state` and `country` are the
strings after the Python defaulting to `""` for a missing key. -/
def buildNewLoc (name state country : String) : String :=
  if state.length ≠ 0 ∧ country.length ≠ 0 then
    name ++ ", " ++ state ++ ", " ++ country
  else if state.length ≠ 0 then
    name ++ ", " ++ country
  else
    name

/-- Embedding of the body of `geocoding` after the stdin loop: given the
(non-empty) query and the provider's reply, produce
`(json_status, lat, lng, new_loc)`.  The Python condition is
`json_status == 200 and len(json_data["hits"]) != 0`. -/
def geocodingCore (location : String) (reply : GeoReply) : GeoResult :=
  if reply.status = 200 then
    match reply.hits with
    | hit :: _ =>
      ⟨reply.status, some hit.lat, some hit.lng,
        buildNewLoc hit.name (hit.state?.getD "") (hit.country?.getD "")⟩
    | [] => ⟨reply.status, none, none, location⟩
  else
    ⟨reply.status, none, none, location⟩

/-- Embedding of the whole of `geocoding(location, key)`: run the stdin
loop, then call the provider once with the resulting query.  The returned
pair records the query that was actually sent to the provider together with
the `GeoResult`; `none` means the stdin loop never produced a query (so the
provider was never called). -/
def geocoding (location : String) (stdin : List String)
    (provider : String → GeoReply) : Option (String × GeoResult) :=
  (firstNonEmptyLocation location stdin).map
    fun q => (q, geocodingCore q (provider q))

/-! ## RouteSynthesizer: the planning round in `main` (main.py 441-493) -/

/-- One entry of a path's `instructions` array. -/
structure RouteInstruction where
  text : String
  distance : ℚ
deriving DecidableEq

/-- One entry of the routing reply's `paths` array: `distance` in meters,
`time` in milliseconds, and the optional `instructions` key. -/
structure RoutePath where
  distance : ℚ
  time : ℚ
  instructions? : Option (List RouteInstruction)
deriving DecidableEq

/-- The routing provider's reply for one vehicle: HTTP status and the
`paths` array of the JSON body (an absent `paths` key is modelled as `[]`,
matching every `"paths" in paths_data` guard in the source). -/
structure RouteReply where
  status : Nat
  paths : List RoutePath
deriving DecidableEq

/-- Source list `api_supported_profiles = ["car", "bike", "foot"]`. -/
def apiSupportedProfiles : List String := ["car", "bike", "foot"]

/-- Source list `additional_profiles = ["bus", "airplane"]`. -/
def additionalProfiles : List String := ["bus", "airplane"]

/-- The `all_paths_data` dictionary built by the first loop of the planning
round: one entry per API-supported vehicle whose routing call returned
status 200. -/
def allPathsData (route : String → RouteReply) : List (String × RouteReply) :=
  apiSupportedProfiles.filterMap fun vehicle =>
    if (route vehicle).status = 200 then some (vehicle, route vehicle) else none

/-- The `base_car_distance` variable: set to the car path's distance in km
only when the car call returned 200 with a non-empty `paths` array,
otherwise left `None`. -/
def baseCarDistance (route : String → RouteReply) : Option ℚ :=
  if (route "car").status = 200 then
    match (route "car").paths with
    | p :: _ => some (p.distance / 1000)
    | [] => none
  else
    none

/-- Python truthiness of an optional float, as used by the
`if base_car_distance:` guard: `None` and `0.0` are falsy. -/
def pyTruthy (x? : Option ℚ) : Bool :=
  match x? with
  | none => false
  | some x => decide (x ≠ 0)

/-- The derived-mode estimates computed by the second loop of the planning
round: for each of `additional_profiles`, the baseline car distance and the
estimated duration, produced only when `base_car_distance` is truthy. -/
def estimatedEntries (route : String → RouteReply) : List (String × ℚ × ℚ) :=
  if pyTruthy (baseCarDistance route) then
    match baseCarDistance route with
    | some d =>
      additionalProfiles.map fun vehicle =>
        (vehicle, d, calculate_additional_transport_times d vehicle)
    | none => []
  else
    []

/-- What one planning round produces once geocoding has succeeded: the
fetched API-mode replies and the ingested derived-mode estimates. -/
structure PlanOutcome where
  pathsData : List (String × RouteReply)
  estimates : List (String × ℚ × ℚ)
deriving DecidableEq

/-- Embedding of the planning round of `main`: the geocoding gate is the
source's `if orig[0] != 200 or dest[0] != 200: ... continue`, which aborts
(`none`, printing an error) before any routing call; otherwise every
API-supported mode is fetched and the derived modes estimated. -/
def planRound (orig dest : GeoResult) (route : String → RouteReply) :
    Option PlanOutcome :=
  if orig.status ≠ 200 ∨ dest.status ≠ 200 then
    none
  else
    some ⟨allPathsData route, estimatedEntries route⟩

/-- The modes present in the outcome of a planning round (the keys of the
result mapping of the spec's `RouteSynthesizer.planAll`). -/
def resultModes (out : PlanOutcome) : List String :=
  out.pathsData.map Prod.fst ++ out.estimates.map Prod.fst

/-! ## KnowledgeStore: `RAGSystem.store_route_data` (main.py 98-170) and
`RAGSystem.store_additional_transport_info` (main.py 172-241)

The `Document` page content assembled by f-strings is modelled by a
constructor carrying the interpolated fields; the `metadata` dictionary is
modelled by the remaining fields of `StoredDoc`. -/

/-- Structural model of the `page_content` of each stored document. -/
inductive DocContent where
  | routeMeta (origin destination mode : String) (distanceMeters timeMillis : ℚ)
      (timestamp : String)
  | direction (step : Nat) (text : String) (distanceMeters : ℚ) (mode : String)
  | routeSummary (origin destination mode : String) (distanceMeters timeMillis : ℚ)
      (numSteps : Nat)
  | estimatedMeta (origin destination mode : String) (distanceKm durationMinutes : ℚ)
      (timestamp : String)
  | busInfo (origin destination : String) (distanceKm durationMinutes : ℚ)
  | planeInfo (origin destination : String) (distanceKm durationMinutes : ℚ)
deriving DecidableEq

/-- One document added to the vector store: content plus the `metadata`
fields (`type`, `route_id`, `mode`, optional `step_number`, optional
`estimated` flag; absent keys are modelled by `none` / `false`). -/
structure StoredDoc where
  content : DocContent
  dtype : String
  route_id : String
  mode : String
  stepNumber? : Option Nat
  estimated : Bool
deriving DecidableEq

/-- The `route_id = f"{orig_loc}_to_{dest_loc}_{vehicle}"` key. -/
def routeIdOf (orig_loc dest_loc vehicle : String) : String :=
  orig_loc ++ "_to_" ++ dest_loc ++ "_" ++ vehicle

/-- The `for idx, instruction in enumerate(path["instructions"])` loop of
`store_route_data`: one `direction` document per instruction, with the
1-indexed step number `idx + 1` and the instruction's own distance. -/
def mkDirectionDocs (route_id vehicle : String) :
    Nat → List RouteInstruction → List StoredDoc
  | _, [] => []
  | idx, ins :: rest =>
    ⟨DocContent.direction (idx + 1) ins.text ins.distance vehicle, "direction",
        route_id, vehicle, some (idx + 1), false⟩ ::
      mkDirectionDocs route_id vehicle (idx + 1) rest

/-- Embedding of `store_route_data(paths_data, orig_loc, dest_loc, vehicle)`:
returns the list of documents added to the vector store.  An empty (or
absent) `paths` array stores nothing; otherwise the first path yields one
`route_metadata` document, one `direction` document per instruction (none
when the `instructions` key is absent), and one `route_summary` document
whose step count is `len(path.get("instructions", []))`. -/
def store_route_data (paths_data : RouteReply)
    (orig_loc dest_loc vehicle now : String) : List StoredDoc :=
  match paths_data.paths with
  | [] => []
  | path :: _ =>
    ⟨DocContent.routeMeta orig_loc dest_loc vehicle path.distance path.time now,
        "route_metadata", routeIdOf orig_loc dest_loc vehicle, vehicle, none,
        false⟩ ::
      ((match path.instructions? with
        | some instrs =>
          mkDirectionDocs (routeIdOf orig_loc dest_loc vehicle) vehicle 0 instrs
        | none => []) ++
        [⟨DocContent.routeSummary orig_loc dest_loc vehicle path.distance
            path.time (path.instructions?.getD []).length, "route_summary",
            routeIdOf orig_loc dest_loc vehicle, vehicle, none, false⟩])

/-- Embedding of
`store_additional_transport_info(orig_loc, dest_loc, vehicle, distance,
duration)`: one estimated `route_metadata` document always, plus one
`transport_info` document when the vehicle is `"bus"` or `"airplane"`. -/
def store_additional_transport_info (orig_loc dest_loc vehicle : String)
    (distance duration : ℚ) (now : String) : List StoredDoc :=
  ⟨DocContent.estimatedMeta orig_loc dest_loc vehicle distance duration now,
      "route_metadata", routeIdOf orig_loc dest_loc vehicle, vehicle, none,
      true⟩ ::
    (if vehicle = "bus" then
      [⟨DocContent.busInfo orig_loc dest_loc distance duration,
          "transport_info", routeIdOf orig_loc dest_loc vehicle, vehicle, none,
          false⟩]
    else if vehicle = "airplane" then
      [⟨DocContent.planeInfo orig_loc dest_loc distance duration,
          "transport_info", routeIdOf orig_loc dest_loc vehicle, vehicle, none,
          false⟩]
    else
      [])

/-! ## QueryEngine: `RAGSystem.query` (main.py 243-295)

The conversation memory (`ConversationBufferMemory`) is modelled as a list
of (query, answer) pairs threaded through the call; `main.py` only ever
reads it (`memory.load_memory_variables`), never writes to it.  The
retriever and the generative model are passed in as `Except`-valued
functions so that a raised exception is an explicit `error` value; the
prompt built by `self.prompt.format(**inputs)` is modelled by the
`PromptInputs` record of its four slot values. -/

/-- The four slots of the prompt template filled by `query`. -/
structure PromptInputs where
  context : String
  question : String
  chat_history : List (String × String)
  transport_preference : String
deriving DecidableEq

/-- The dictionary `query` returns: the answer text and the (always empty)
source list. -/
structure QueryOutput where
  answer : String
  sources : List String
deriving DecidableEq

/-- Everything observable about one `query` call: the string handed to the
retriever, the prompt slots (absent when retrieval already failed), the
returned output, and the conversation memory after the call. -/
structure QueryTrace where
  retrievalQuery : String
  promptInputs? : Option PromptInputs
  output : QueryOutput
  newState : List (String × String)
deriving DecidableEq

/-- U+0027, used to spell the fallback text without a bare quote mark. -/
def apostrophe : Char := Char.ofNat 39

/-- The literal fallback answer of the `except` branch of `query`:
`I'm sorry, I couldn't process your request at this time.` -/
def fallbackAnswer : String :=
  "I" ++ String.singleton apostrophe ++ "m sorry, I couldn" ++
    String.singleton apostrophe ++ "t process your request at this time."

/-- The `enhanced_query` assembly at the top of `query`: the optional
location clause, then the optional preference clause, joined by `"; "` and
appended to the original query in parentheses; the original query unchanged
when both are absent. -/
def enhancedQueryOf (user_query : String)
    (transport_preference user_location : Option String) : String :=
  let query_context :=
    (match user_location with
      | some loc => ["User is currently at " ++ loc]
      | none => []) ++
    (match transport_preference with
      | some p => ["User prefers " ++ p ++ " transportation"]
      | none => [])
  if query_context = [] then
    user_query
  else
    user_query ++ " (" ++ String.intercalate "; " query_context ++ ")"

/-- Embedding of `format_docs`: join the retrieved page contents with a
double newline. -/
def format_docs (docs : List String) : String := String.intercalate "\n\n" docs

/-- Embedding of `RAGSystem.query(user_query, transport_preference,
user_location)`.  Retrieval is driven by the enhanced query; the prompt's
`question` slot is likewise filled with `enhanced_query`; any error from
retrieval or from the model yields the fallback answer; the conversation
memory is returned unchanged in every branch, because the source never
stores into it. -/
def RAGSystem.query (state : List (String × String)) (user_query : String)
    (transport_preference user_location : Option String)
    (getRelevantDocuments : String → Except String (List String))
    (invokeModel : PromptInputs → Except String String) : QueryTrace :=
  let enhanced_query := enhancedQueryOf user_query transport_preference user_location
  match getRelevantDocuments enhanced_query with
  | Except.error _ => ⟨enhanced_query, none, ⟨fallbackAnswer, []⟩, state⟩
  | Except.ok docs =>
    let inputs : PromptInputs :=
      ⟨format_docs docs, enhanced_query, state, transport_preference.getD "any"⟩
    match invokeModel inputs with
    | Except.error _ => ⟨enhanced_query, some inputs, ⟨fallbackAnswer, []⟩, state⟩
    | Except.ok result => ⟨enhanced_query, some inputs, ⟨result, []⟩, state⟩

/-! ## Concrete fixtures used by witnesses and counterexamples -/

/-- A geocoding provider stub whose every reply is 200 with zero hits. -/
def stubEmptyProvider : String → GeoReply := fun _ => ⟨200, []⟩

/-- A routing stub for which every call fails with HTTP status 500. -/
def stubFailRoute : String → RouteReply := fun _ => ⟨500, []⟩

/-- A retriever stub that always raises. -/
def stubRetrievalFail : String → Except String (List String) :=
  fun _ => Except.error "network down"

/-- A retriever stub that returns one document. -/
def stubRetrievalOk : String → Except String (List String) :=
  fun _ => Except.ok ["Route Information: Rome to Baltimore"]

/-- A model stub that always answers. -/
def stubModelOk : PromptInputs → Except String String :=
  fun _ => Except.ok "Here is your route."

/-- A two-step instruction list for a sample route. -/
def sampleInstructions : List RouteInstruction :=
  [⟨"Turn left", 500⟩, ⟨"Arrive at destination", 200⟩]

/-- A sample 200-status routing reply containing one path with two
instruction steps. -/
def sampleReply : RouteReply := ⟨200, [⟨7000, 600000, some sampleInstructions⟩]⟩

/-! ## Unfolding lemmas for the estimator -/

theorem catt_bus (d : ℚ) :
    calculate_additional_transport_times d "bus" = (d / 25) * 60 := by
  simp [calculate_additional_transport_times]

theorem catt_airplane (d : ℚ) :
    calculate_additional_transport_times d "airplane" =
      if d < 100 then 30 else max 30 ((d / 700) * 60 + 30) := by
  simp only [calculate_additional_transport_times]
  rw [if_neg (by decide)]
  simp

theorem catt_other (d : ℚ) (mode : String) (hb : mode ≠ "bus")
    (ha : mode ≠ "airplane") : calculate_additional_transport_times d mode = 0 := by
  simp [calculate_additional_transport_times, hb, ha]

/-! ## Claim C1 -/

/-- C1, counterexample: the claim says the airplane estimate returns exactly
1800 (seconds) for every distance below 100 km, but
`calculate_additional_transport_times 50 "airplane"` returns the value 30
(the function works in minutes), which is not 1800. -/
theorem c1_counterexample :
    calculate_additional_transport_times 50 "airplane" = 30 ∧
    calculate_additional_transport_times 50 "airplane" ≠ 1800 := by
  rw [catt_airplane]
  norm_num

/-- C1 (amended): the airplane estimate returns durations in minutes.  For
distanceKm < 100 it returns exactly 30 minutes (1800 seconds once
converted); for distanceKm ≥ 100 it returns `distanceKm / 700 * 60 + 30`
minutes (distanceKm / 700 hours of flight time plus a fixed 30-minute
ground-operations overhead), whose value in seconds is at least 1800, and
it is strictly monotonically increasing on distances ≥ 100. -/
theorem c1_airplane_estimate (d d₁ d₂ : ℚ) (hd : d < 100) (h₁ : 100 ≤ d₁)
    (hlt : d₁ < d₂) :
    calculate_additional_transport_times d "airplane" = 30 ∧
    durationSecondsOf (calculate_additional_transport_times d "airplane") = 1800 ∧
    calculate_additional_transport_times d₁ "airplane" = (d₁ / 700) * 60 + 30 ∧
    1800 ≤ durationSecondsOf (calculate_additional_transport_times d₁ "airplane") ∧
    calculate_additional_transport_times d₁ "airplane"
      < calculate_additional_transport_times d₂ "airplane" := by
  have h₂ : (100 : ℚ) ≤ d₂ := le_of_lt (lt_of_le_of_lt h₁ hlt)
  have e₁ : calculate_additional_transport_times d₁ "airplane"
      = (d₁ / 700) * 60 + 30 := by
    rw [catt_airplane, if_neg (not_lt.2 h₁)]
    exact max_eq_right (by linarith)
  have e₂ : calculate_additional_transport_times d₂ "airplane"
      = (d₂ / 700) * 60 + 30 := by
    rw [catt_airplane, if_neg (not_lt.2 h₂)]
    exact max_eq_right (by linarith)
  refine ⟨by rw [catt_airplane, if_pos hd], ?_, e₁, ?_, ?_⟩
  · rw [catt_airplane, if_pos hd, durationSecondsOf]
    norm_num
  · rw [e₁, durationSecondsOf]
    linarith
  · rw [e₁, e₂]
    linarith

/-- C1 witness: the amended claim instantiated at distances 50, 100, 200. -/
theorem c1_airplane_estimate_witness :
    calculate_additional_transport_times 50 "airplane" = 30 ∧
    durationSecondsOf (calculate_additional_transport_times 50 "airplane") = 1800 ∧
    calculate_additional_transport_times 100 "airplane" = (100 / 700) * 60 + 30 ∧
    1800 ≤ durationSecondsOf (calculate_additional_transport_times 100 "airplane") ∧
    calculate_additional_transport_times 100 "airplane"
      < calculate_additional_transport_times 200 "airplane" :=
  c1_airplane_estimate 50 100 200 (by norm_num) (by norm_num) (by norm_num)

/-! ## Claim C2 -/

/-- C2, counterexample: the claim says the bus estimate equals exactly
`distanceKm / 25 * 3600` (seconds), but at distance 25 the function returns
60 (minutes), not 25 / 25 * 3600 = 3600. -/
theorem c2_counterexample :
    calculate_additional_transport_times 25 "bus" = 60 ∧
    calculate_additional_transport_times 25 "bus" ≠ 25 / 25 * 3600 := by
  rw [catt_bus]
  norm_num

/-- C2 (amended): the bus estimate returns `distanceKm / 25 * 60` minutes
(whose value in seconds is exactly `distanceKm / 25 * 3600`), and it is
strictly monotonically increasing in distanceKm. -/
theorem c2_bus_estimate (d d₁ d₂ : ℚ) (hlt : d₁ < d₂) :
    calculate_additional_transport_times d "bus" = (d / 25) * 60 ∧
    durationSecondsOf (calculate_additional_transport_times d "bus")
      = (d / 25) * 3600 ∧
    calculate_additional_transport_times d₁ "bus"
      < calculate_additional_transport_times d₂ "bus" := by
  refine ⟨catt_bus d, ?_, ?_⟩
  · rw [catt_bus, durationSecondsOf]
    ring
  · rw [catt_bus, catt_bus]
    linarith

/-- C2 witness: the amended claim instantiated at distances 25, 0, 50. -/
theorem c2_bus_estimate_witness :
    calculate_additional_transport_times 25 "bus" = (25 / 25) * 60 ∧
    durationSecondsOf (calculate_additional_transport_times 25 "bus")
      = (25 / 25) * 3600 ∧
    calculate_additional_transport_times 0 "bus"
      < calculate_additional_transport_times 50 "bus" :=
  c2_bus_estimate 25 0 50 (by norm_num)

/-! ## Claim C3 -/

/-- Whenever the stdin loop terminates with a query, that query is
non-empty and is either the initial location or one of the stdin lines. -/
theorem firstNonEmptyLocation_spec :
    ∀ (stdin : List String) (loc q : String),
      firstNonEmptyLocation loc stdin = some q → q ≠ "" ∧ (q = loc ∨ q ∈ stdin)
  | [], loc, q => by
    intro h
    simp only [firstNonEmptyLocation] at h
    by_cases hl : loc = ""
    · rw [if_pos hl] at h
      exact absurd h (by simp)
    · rw [if_neg hl] at h
      have hq := Option.some.inj h
      subst hq
      exact ⟨hl, Or.inl rfl⟩
  | next :: rest, loc, q => by
    intro h
    simp only [firstNonEmptyLocation] at h
    by_cases hl : loc = ""
    · rw [if_pos hl] at h
      obtain ⟨hne, hmem⟩ := firstNonEmptyLocation_spec rest next q h
      refine ⟨hne, Or.inr ?_⟩
      rcases hmem with he | hm
      · simp [he]
      · simp [hm]
    · rw [if_neg hl] at h
      have hq := Option.some.inj h
      subst hq
      exact ⟨hl, Or.inl rfl⟩

/-- C3, counterexample: called with the empty string while one line
`"Paris"` is pending on stdin, `geocoding` reads the replacement from stdin
and calls the provider with it — it does not return an EmptyInput error
(no such status exists in the code) and it does loop on stdin. -/
theorem c3_counterexample :
    (geocoding "" ["Paris"] stubEmptyProvider).map Prod.fst = some "Paris" := by
  rfl

/-- C3 (amended): on empty input `geocoding` re-prompts: it loops reading
replacement locations from stdin, and whenever the loop terminates with a
query `q` handed to the provider, `q` is non-empty and was drawn from
stdin; so the provider is never called with an empty query, but the
component does loop on stdin instead of failing with an EmptyInput
status. -/
theorem c3_empty_input_loops (stdin : List String)
    (provider : String → GeoReply) (q : String) (r : GeoResult)
    (h : geocoding "" stdin provider = some (q, r)) :
    q ≠ "" ∧ q ∈ stdin ∧ r = geocodingCore q (provider q) := by
  simp only [geocoding] at h
  cases hfq : firstNonEmptyLocation "" stdin with
  | none =>
    rw [hfq] at h
    exact absurd h (by simp)
  | some x =>
    rw [hfq] at h
    simp only [Option.map_some'] at h
    have h2 := Option.some.inj h
    rw [Prod.mk.injEq] at h2
    obtain ⟨hq, hr⟩ := h2
    obtain ⟨hne, hor⟩ := firstNonEmptyLocation_spec stdin "" x hfq
    subst hq
    subst hr
    rcases hor with he | hm
    · exact absurd he hne
    · exact ⟨hne, hm, rfl⟩

/-- C3 witness: the amended claim instantiated with stdin `["Paris"]`. -/
theorem c3_empty_input_loops_witness :
    "Paris" ≠ "" ∧ "Paris" ∈ ["Paris"] ∧
      geocodingCore "Paris" (stubEmptyProvider "Paris")
        = geocodingCore "Paris" (stubEmptyProvider "Paris") :=
  c3_empty_input_loops ["Paris"] stubEmptyProvider "Paris"
    (geocodingCore "Paris" (stubEmptyProvider "Paris")) (by rfl)

/-! ## Claim C4 -/

/-- C4: evaluation of the source at the failing input.  On a hit whose
state is present (`Illinois`) and whose country is absent, the `elif`
branch of `geocoding` concatenates `country` — the empty string — instead
of `state`, so the canonical name is `"Springfield, "` with a trailing
separator and an empty component, not `"Springfield, Illinois"`; and on a
hit with a country but no state, the country is dropped entirely. -/
theorem c4_state_without_country_bug :
    (geocodingCore "springfield illinois"
        ⟨200, [⟨39, -89, "Springfield", "city", some "Illinois", none⟩]⟩).new_loc
      = "Springfield, " ∧
    "Springfield, " ≠ "Springfield, Illinois" ∧
    (geocodingCore "paris"
        ⟨200, [⟨48, 2, "Paris", "city", none, some "France"⟩]⟩).new_loc
      = "Paris" :=
  ⟨rfl, by decide, rfl⟩

/-! ## Claim C5 -/

/-- C5, counterexample: a 200-status geocoding reply with zero hits leaves
the origin unresolved (`lat` is the null placeholder), yet the planning
round is not aborted — routing is attempted, because the gate in `main`
checks only the HTTP status. -/
theorem c5_counterexample :
    (geocodingCore "Nowhereville" ⟨200, []⟩).lat? = none ∧
    (planRound (geocodingCore "Nowhereville" ⟨200, []⟩)
        (geocodingCore "Paris"
          ⟨200, [⟨48, 2, "Paris", "city", none, some "France"⟩]⟩)
        stubFailRoute).isSome = true :=
  ⟨rfl, rfl⟩

/-- C5 (amended): the planning round aborts with the geocoding error —
attempting no routing call — exactly when the origin or the destination
geocoding reply has a non-200 HTTP status; a 200-status reply with zero
hits (unresolved location with null coordinates) does not abort the
round. -/
theorem c5_geocoding_gate (orig dest : GeoResult)
    (route : String → RouteReply) :
    planRound orig dest route = none ↔
      orig.status ≠ 200 ∨ dest.status ≠ 200 := by
  constructor
  · intro h
    by_contra hc
    rw [planRound, if_neg hc] at h
    exact Option.noConfusion h
  · intro h
    rw [planRound, if_pos h]

/-! ## Claim C6 -/

/-- Every mode key of `all_paths_data` comes from `api_supported_profiles`. -/
theorem fst_mem_allPathsData (route : String → RouteReply) (v : String)
    (hv : v ∈ (allPathsData route).map Prod.fst) : v ∈ apiSupportedProfiles := by
  obtain ⟨p, hp, rfl⟩ := List.mem_map.1 hv
  obtain ⟨a, ha, hsome⟩ := List.mem_filterMap.1 hp
  by_cases h : (route a).status = 200
  · rw [if_pos h] at hsome
    obtain rfl := Option.some.inj hsome
    exact ha
  · rw [if_neg h] at hsome
    exact Option.noConfusion hsome

/-- C6 (confirmed): when the car routing call failed (non-200 status) or
returned no path, the planning round produces no derived-mode estimates,
and neither `bus` nor `airplane` appears among the modes of the result. -/
theorem c6_car_failure_no_derived (orig dest : GeoResult)
    (route : String → RouteReply) (out : PlanOutcome)
    (hout : planRound orig dest route = some out)
    (hcar : (route "car").status ≠ 200 ∨ (route "car").paths = []) :
    out.estimates = [] ∧ "bus" ∉ resultModes out ∧
      "airplane" ∉ resultModes out := by
  have hgate : ¬(orig.status ≠ 200 ∨ dest.status ≠ 200) := by
    intro hc
    rw [planRound, if_pos hc] at hout
    exact Option.noConfusion hout
  have hout2 : out = ⟨allPathsData route, estimatedEntries route⟩ := by
    rw [planRound, if_neg hgate] at hout
    exact (Option.some.inj hout).symm
  subst hout2
  have hbase : baseCarDistance route = none := by
    rcases hcar with h | h
    · simp [baseCarDistance, h]
    · by_cases hs : (route "car").status = 200
      · simp [baseCarDistance, hs, h]
      · simp [baseCarDistance, hs]
  have hest : estimatedEntries route = [] := by
    simp [estimatedEntries, hbase, pyTruthy]
  refine ⟨hest, ?_, ?_⟩ <;>
  · intro hmem
    simp only [resultModes, hest, List.map_nil, List.append_nil] at hmem
    exact absurd (fst_mem_allPathsData route _ hmem) (by decide)

/-- C6 witness: both geocodings resolved, every routing call failing with
status 500 — the outcome has no estimates and no bus or airplane mode. -/
theorem c6_car_failure_no_derived_witness :
    (PlanOutcome.mk [] []).estimates = [] ∧
    "bus" ∉ resultModes ⟨[], []⟩ ∧ "airplane" ∉ resultModes ⟨[], []⟩ :=
  c6_car_failure_no_derived ⟨200, some 41, some 12, "Rome, Italy"⟩
    ⟨200, some 39, some (-76), "Baltimore, Maryland"⟩ stubFailRoute ⟨[], []⟩
    (by rfl) (Or.inl (by decide))

/-! ## Claim C7 -/

theorem mkDirectionDocs_length (route_id vehicle : String) :
    ∀ (k : Nat) (l : List RouteInstruction),
      (mkDirectionDocs route_id vehicle k l).length = l.length
  | _, [] => rfl
  | k, _ :: rest => by
    simp only [mkDirectionDocs, List.length_cons]
    rw [mkDirectionDocs_length route_id vehicle (k + 1) rest]

theorem mkDirectionDocs_dtype (route_id vehicle : String) :
    ∀ (k : Nat) (l : List RouteInstruction) (d : StoredDoc),
      d ∈ mkDirectionDocs route_id vehicle k l → d.dtype = "direction"
  | k, [], d => by
    intro h
    simp [mkDirectionDocs] at h
  | k, ins :: rest, d => by
    intro h
    simp only [mkDirectionDocs, List.mem_cons] at h
    rcases h with rfl | h
    · rfl
    · exact mkDirectionDocs_dtype route_id vehicle (k + 1) rest d h

theorem mkDirectionDocs_countP_direction (route_id vehicle : String) :
    ∀ (k : Nat) (l : List RouteInstruction),
      (mkDirectionDocs route_id vehicle k l).countP
        (fun d => d.dtype == "direction") = l.length
  | _, [] => rfl
  | k, _ :: rest => by
    simp only [mkDirectionDocs, List.countP_cons, List.length_cons]
    rw [mkDirectionDocs_countP_direction route_id vehicle (k + 1) rest]
    simp

theorem mkDirectionDocs_countP_other (route_id vehicle s : String)
    (hs : s ≠ "direction") (k : Nat) (l : List RouteInstruction) :
    (mkDirectionDocs route_id vehicle k l).countP
      (fun d => d.dtype == s) = 0 := by
  rw [List.countP_eq_zero]
  intro d hd
  have hdt := mkDirectionDocs_dtype route_id vehicle k l d hd
  simp only [hdt, beq_iff_eq]
  exact fun hcontra => hs hcontra.symm

theorem mkDirectionDocs_getElem (route_id vehicle : String) :
    ∀ (l : List RouteInstruction) (k i : Nat) (ins : RouteInstruction),
      l[i]? = some ins →
      (mkDirectionDocs route_id vehicle k l)[i]? =
        some ⟨DocContent.direction (k + i + 1) ins.text ins.distance vehicle,
          "direction", route_id, vehicle, some (k + i + 1), false⟩
  | [], _, i, ins => by
    intro h
    simp at h
  | a :: rest, k, 0, ins => by
    intro h
    simp only [List.getElem?_cons_zero] at h
    obtain rfl := Option.some.inj h
    simp [mkDirectionDocs]
  | a :: rest, k, i + 1, ins => by
    intro h
    simp only [List.getElem?_cons_succ] at h
    simp only [mkDirectionDocs, List.getElem?_cons_succ]
    have e : k + 1 + i + 1 = k + (i + 1) + 1 := by omega
    rw [mkDirectionDocs_getElem route_id vehicle rest (k + 1) i ins h, e]

/-- C7 (confirmed): for a reply whose first path carries N instruction
steps, `store_route_data` stores exactly N + 2 documents — one
`route_metadata`, one `route_summary`, and one `direction` per step — and
the direction document at position i + 1 of the stored list is the
1-indexed step i + 1, carrying the i-th instruction's own text and
distance, in traversal order. -/
theorem c7_store_route_units (reply : RouteReply)
    (orig_loc dest_loc vehicle now : String) (path : RoutePath)
    (rest : List RoutePath) (instrs : List RouteInstruction)
    (hp : reply.paths = path :: rest) (hi : path.instructions? = some instrs) :
    (store_route_data reply orig_loc dest_loc vehicle now).length
      = instrs.length + 2 ∧
    (store_route_data reply orig_loc dest_loc vehicle now).countP
      (fun d => d.dtype == "route_metadata") = 1 ∧
    (store_route_data reply orig_loc dest_loc vehicle now).countP
      (fun d => d.dtype == "route_summary") = 1 ∧
    (store_route_data reply orig_loc dest_loc vehicle now).countP
      (fun d => d.dtype == "direction") = instrs.length ∧
    ∀ (i : Nat) (ins : RouteInstruction), instrs[i]? = some ins →
      (store_route_data reply orig_loc dest_loc vehicle now)[i + 1]? =
        some ⟨DocContent.direction (i + 1) ins.text ins.distance vehicle,
          "direction", routeIdOf orig_loc dest_loc vehicle, vehicle,
          some (i + 1), false⟩ := by
  have hdocs : store_route_data reply orig_loc dest_loc vehicle now =
      ⟨DocContent.routeMeta orig_loc dest_loc vehicle path.distance path.time
          now, "route_metadata", routeIdOf orig_loc dest_loc vehicle, vehicle,
          none, false⟩ ::
        (mkDirectionDocs (routeIdOf orig_loc dest_loc vehicle) vehicle 0
            instrs ++
          [⟨DocContent.routeSummary orig_loc dest_loc vehicle path.distance
              path.time instrs.length, "route_summary",
              routeIdOf orig_loc dest_loc vehicle, vehicle, none, false⟩]) := by
    simp only [store_route_data, hp, hi, Option.getD_some]
  rw [hdocs]
  refine ⟨?_, ?_, ?_, ?_, ?_⟩
  · simp [mkDirectionDocs_length]
  · simp [List.countP_cons, List.countP_append,
      mkDirectionDocs_countP_other _ _ "route_metadata" (by decide)]
  · simp [List.countP_cons, List.countP_append,
      mkDirectionDocs_countP_other _ _ "route_summary" (by decide)]
  · simp [List.countP_cons, List.countP_append,
      mkDirectionDocs_countP_direction]
  · intro i ins hins
    have hlt : i < instrs.length := by
      by_contra hge
      push_neg at hge
      rw [List.getElem?_eq_none hge] at hins
      exact Option.noConfusion hins
    rw [List.getElem?_cons_succ]
    rw [List.getElem?_append_left
      (by rw [mkDirectionDocs_length]; exact hlt)]
    simpa using
      mkDirectionDocs_getElem (routeIdOf orig_loc dest_loc vehicle) vehicle
        instrs 0 i ins hins

/-- C7 witness: the sample two-step reply yields 4 documents with the
expected counts, and its first direction document is step 1 carrying the
first instruction's distance. -/
theorem c7_store_route_units_witness :
    (store_route_data sampleReply "Rome, Italy" "Baltimore, Maryland" "car"
        "2026-10-12 00:00:00").length = sampleInstructions.length + 2 ∧
    (store_route_data sampleReply "Rome, Italy" "Baltimore, Maryland" "car"
        "2026-10-12 00:00:00").countP
      (fun d => d.dtype == "route_metadata") = 1 ∧
    (store_route_data sampleReply "Rome, Italy" "Baltimore, Maryland" "car"
        "2026-10-12 00:00:00").countP
      (fun d => d.dtype == "route_summary") = 1 ∧
    (store_route_data sampleReply "Rome, Italy" "Baltimore, Maryland" "car"
        "2026-10-12 00:00:00").countP
      (fun d => d.dtype == "direction") = sampleInstructions.length ∧
    (store_route_data sampleReply "Rome, Italy" "Baltimore, Maryland" "car"
        "2026-10-12 00:00:00")[1]? =
      some ⟨DocContent.direction 1 "Turn left" 500 "car", "direction",
        routeIdOf "Rome, Italy" "Baltimore, Maryland" "car", "car", some 1,
        false⟩ := by
  obtain ⟨h1, h2, h3, h4, h5⟩ := c7_store_route_units sampleReply
    "Rome, Italy" "Baltimore, Maryland" "car" "2026-10-12 00:00:00"
    ⟨7000, 600000, some sampleInstructions⟩ [] sampleInstructions rfl rfl
  exact ⟨h1, h2, h3, h4, h5 0 ⟨"Turn left", 500⟩ rfl⟩

/-! ## Claim C10 -/

/-- C10 (confirmed): `store_additional_transport_info` stores exactly two
documents (the estimated metadata plus one `transport_info` document) when
the vehicle is `bus` or `airplane`, and exactly one document (the estimated
metadata alone, with no `transport_info` document) for every other
vehicle. -/
theorem c10_store_additional_units (orig_loc dest_loc vehicle now : String)
    (distance duration : ℚ) :
    (store_additional_transport_info orig_loc dest_loc vehicle distance
        duration now).length
      = (if vehicle = "bus" ∨ vehicle = "airplane" then 2 else 1) ∧
    (store_additional_transport_info orig_loc dest_loc vehicle distance
        duration now).countP (fun d => d.dtype == "route_metadata") = 1 ∧
    (store_additional_transport_info orig_loc dest_loc vehicle distance
        duration now).countP (fun d => d.dtype == "transport_info")
      = (if vehicle = "bus" ∨ vehicle = "airplane" then 1 else 0) := by
  by_cases hb : vehicle = "bus"
  · subst hb
    exact ⟨rfl, rfl, rfl⟩
  · by_cases ha : vehicle = "airplane"
    · subst ha
      exact ⟨rfl, rfl, rfl⟩
    · have hnor : ¬(vehicle = "bus" ∨ vehicle = "airplane") :=
        not_or.2 ⟨hb, ha⟩
      have hsd : store_additional_transport_info orig_loc dest_loc vehicle
          distance duration now
          = [⟨DocContent.estimatedMeta orig_loc dest_loc vehicle distance
              duration now, "route_metadata",
              routeIdOf orig_loc dest_loc vehicle, vehicle, none, true⟩] := by
        rw [store_additional_transport_info, if_neg hb, if_neg ha]
      rw [hsd, if_neg hnor, if_neg hnor]
      exact ⟨rfl, rfl, rfl⟩

/-! ## Claim C8 -/

/-- C8, counterexample: when retrieval raises, the answer is the source's
literal fallback text, which is not the claimed string "unable to process
request at this time"; and on a fully successful call the conversation
memory is returned unchanged — the (query, answer) pair is not appended. -/
theorem c8_counterexample :
    (RAGSystem.query [("earlier q", "earlier a")] "next question" none none
        stubRetrievalFail stubModelOk).output.answer
      ≠ "unable to process request at this time" ∧
    (RAGSystem.query [("earlier q", "earlier a")] "next question" none none
        stubRetrievalOk stubModelOk).newState = [("earlier q", "earlier a")] ∧
    ([("earlier q", "earlier a")] : List (String × String))
      ≠ [("earlier q", "earlier a"),
          ("next question",
            (RAGSystem.query [("earlier q", "earlier a")] "next question" none
                none stubRetrievalOk stubModelOk).output.answer)] := by
  refine ⟨?_, rfl, ?_⟩ <;> decide

/-- C8 (amended): any retrieval or model-invocation error is caught and
converted to the source's fixed fallback answer ("I'm sorry, I couldn't
process your request at this time."), never propagated to the caller; and
the conversation memory is returned unchanged by every call — on failure
and on success alike, since `query` never stores into it. -/
theorem c8_query_failure_semantics (state : List (String × String))
    (user_query : String) (tp ul : Option String)
    (retr : String → Except String (List String))
    (model : PromptInputs → Except String String) (e : String)
    (hfail : retr (enhancedQueryOf user_query tp ul) = Except.error e ∨
      ∃ docs, retr (enhancedQueryOf user_query tp ul) = Except.ok docs ∧
        model ⟨format_docs docs, enhancedQueryOf user_query tp ul, state,
          tp.getD "any"⟩ = Except.error e) :
    (RAGSystem.query state user_query tp ul retr model).output.answer
      = fallbackAnswer ∧
    ∀ (retr2 : String → Except String (List String))
      (model2 : PromptInputs → Except String String),
      (RAGSystem.query state user_query tp ul retr2 model2).newState
        = state := by
  constructor
  · rcases hfail with h | ⟨docs, hok, hm⟩
    · simp [RAGSystem.query, h]
    · simp [RAGSystem.query, hok, hm]
  · intro retr2 model2
    cases hr : retr2 (enhancedQueryOf user_query tp ul) with
    | error e2 => simp [RAGSystem.query, hr]
    | ok docs =>
      cases hm2 : model2 ⟨format_docs docs, enhancedQueryOf user_query tp ul,
          state, tp.getD "any"⟩ with
      | error e2 => simp [RAGSystem.query, hr, hm2]
      | ok r => simp [RAGSystem.query, hr, hm2]

/-- C8 witness: the amended claim instantiated with a failing retriever
(for the fallback) and a succeeding retriever and model (for the unchanged
memory). -/
theorem c8_query_failure_semantics_witness :
    (RAGSystem.query [("earlier q", "earlier a")] "next question" none none
        stubRetrievalFail stubModelOk).output.answer = fallbackAnswer ∧
    (RAGSystem.query [("earlier q", "earlier a")] "next question" none none
        stubRetrievalOk stubModelOk).newState
      = [("earlier q", "earlier a")] := by
  obtain ⟨h1, h2⟩ := c8_query_failure_semantics [("earlier q", "earlier a")]
    "next question" none none stubRetrievalFail stubModelOk "network down"
    (Or.inl rfl)
  exact ⟨h1, h2 stubRetrievalOk stubModelOk⟩

/-! ## Claim C9 -/

/-- C9, counterexample: with a transport preference present, the prompt's
user-query slot is filled with the enhanced query, not with the original
user query. -/
theorem c9_counterexample :
    Option.map PromptInputs.question
        (RAGSystem.query [] "How do I get there" (some "bus") none
          stubRetrievalOk stubModelOk).promptInputs?
      = some "How do I get there (User prefers bus transportation)" ∧
    "How do I get there (User prefers bus transportation)"
      ≠ "How do I get there" :=
  ⟨rfl, by decide⟩

/-- C9 (amended): the enhanced query (original query with the location
clause then the preference clause appended, in that fixed order) both
drives retrieval and fills the prompt template's user-query slot — the slot
receives the enhanced string, not the original user query. -/
theorem c9_retrieval_and_prompt_query (state : List (String × String))
    (user_query : String) (tp ul : Option String)
    (retr : String → Except String (List String))
    (model : PromptInputs → Except String String) (docs : List String)
    (hok : retr (enhancedQueryOf user_query tp ul) = Except.ok docs) :
    (RAGSystem.query state user_query tp ul retr model).retrievalQuery
      = enhancedQueryOf user_query tp ul ∧
    Option.map PromptInputs.question
        (RAGSystem.query state user_query tp ul retr model).promptInputs?
      = some (enhancedQueryOf user_query tp ul) := by
  cases hm : model ⟨format_docs docs, enhancedQueryOf user_query tp ul, state,
      tp.getD "any"⟩ with
  | error e => constructor <;> simp [RAGSystem.query, hok, hm]
  | ok r => constructor <;> simp [RAGSystem.query, hok, hm]

/-- C9 witness: the amended claim instantiated with a bus preference and
the stub retriever and model. -/
theorem c9_retrieval_and_prompt_query_witness :
    (RAGSystem.query [] "How do I get there" (some "bus") none
        stubRetrievalOk stubModelOk).retrievalQuery
      = enhancedQueryOf "How do I get there" (some "bus") none ∧
    Option.map PromptInputs.question
        (RAGSystem.query [] "How do I get there" (some "bus") none
          stubRetrievalOk stubModelOk).promptInputs?
      = some (enhancedQueryOf "How do I get there" (some "bus") none) :=
  c9_retrieval_and_prompt_query [] "How do I get there" (some "bus") none
    stubRetrievalOk stubModelOk ["Route Information: Rome to Baltimore"] rfl

end RoutePlanner
